import Mathlib

/-!
Shallow embedding of the lav_rust sources (src/timer.rs, src/graphics.rs,
src/wgpu_backend.rs, src/main.rs).  Machine floats (f32/f64) are embedded as
rationals, `std::time::Instant` as a nanosecond timestamp (ℕ), and opaque GPU
handles as natural-number tokens.  Fallible external GPU calls (swapchain
recreation, image acquisition, fence flush) are embedded as explicit
environment values naming their outcome, and a `panicked` outcome mirrors the
Rust panics raised by `unwrap`/`expect`.  The batcher module referenced by
src/main.rs and src/wgpu_backend.rs (`crate::graphics` with `DrawCommand`,
`GraphicsBackend`, `rectangle`, `flush`, …) is not among the sources, so those
definitions are modelled from the spec and marked as such.
-/

namespace Lav

/-- RGBA color record: `Color` in src/graphics.rs (f32 channels) and the color
consumed by src/wgpu_backend.rs (f64 channels), channels embedded as ℚ. -/
structure Color where
  r : ℚ
  g : ℚ
  b : ℚ
  a : ℚ
deriving DecidableEq

/-- Modelled from the spec: the batcher module's row-major 4×4 matrix
(16 floats); the module is absent from src/ (only the spec and the callers in
src/main.rs and src/wgpu_backend.rs refer to it). -/
abbrev Mat : Type := List ℚ

/-- Modelled from the spec: transpose swaps the entry at `i*4+j` with the
entry at `j*4+i`. -/
def Mat.transpose (m : Mat) : Mat :=
  (List.range 16).map fun k => m.getD ((k % 4) * 4 + k / 4) 0

/-- Modelled from the spec: the identity matrix. -/
def Mat.identity : Mat :=
  (List.range 16).map fun k => if k % 4 = k / 4 then (1 : ℚ) else 0

/-- A 2D vertex position (`Vertex` in src/graphics.rs; spec data model). -/
structure Vertex where
  x : ℚ
  y : ℚ
deriving DecidableEq

/-- Modelled from the spec: the draw-command record of the absent batcher
module (`crate::graphics::DrawCommand`, referenced by src/wgpu_backend.rs):
an ordered vertex sequence, an ordered index sequence, and the push-values
snapshot of identity projection, transposed transform and color. -/
structure DrawCommand where
  vertices : List Vertex
  indices : List ℕ
  projection : Mat
  transform : Mat
  color : Color
deriving DecidableEq

/-- Modelled from the spec: the Batcher state — pending vertex and index
sequences, the committed draw-command list, the current color and the
transform register. -/
structure Batcher where
  pendingVertices : List Vertex
  pendingIndices : List ℕ
  commands : List DrawCommand
  color : Color
  transform : Mat
deriving DecidableEq

/-- A Batcher with empty buffers, identity transform and opaque white. -/
def Batcher.empty : Batcher :=
  { pendingVertices := [], pendingIndices := [], commands := [],
    color := { r := 1, g := 1, b := 1, a := 1 }, transform := Mat.identity }

/-- Modelled from the spec: `rectangle(x, y, w, h)` appends 4 vertices at
(x,y), (x,y+h), (x+w,y), (x+w,y+h) and the 6 indices
s, s+1, s+2, s+2, s+1, s+3 where s is the pending vertex count before the
call; pure append, never flushes. -/
def Batcher.rectangle (b : Batcher) (x y w h : ℚ) : Batcher :=
  let s := b.pendingVertices.length
  { b with
    pendingVertices := b.pendingVertices ++
      [⟨x, y⟩, ⟨x, y + h⟩, ⟨x + w, y⟩, ⟨x + w, y + h⟩],
    pendingIndices := b.pendingIndices ++
      [s, s + 1, s + 2, s + 2, s + 1, s + 3] }

/-- Modelled from the spec: `flush()` — when the pending vertex count is
positive, seal the pending batch into a draw command carrying the transposed
current transform and the current color, append it to the committed list and
clear the pending buffers; otherwise a no-op. -/
def Batcher.flush (b : Batcher) : Batcher :=
  if b.pendingVertices.length > 0 then
    { b with
      commands := b.commands ++
        [{ vertices := b.pendingVertices, indices := b.pendingIndices,
           projection := Mat.identity, transform := Mat.transpose b.transform,
           color := b.color }],
      pendingVertices := [],
      pendingIndices := [] }
  else b

/-- Modelled from the spec: `present()` — flush, then hand the whole committed
command list to the backend (returned here as the second component) and clear
it. -/
def Batcher.present (b : Batcher) : Batcher × List DrawCommand :=
  let f := Batcher.flush b
  ({ f with commands := [] }, f.commands)

/-! ### Timer (src/timer.rs) -/

/-- Timer state (src/timer.rs): two `Instant`s embedded as nanosecond
timestamps and the delta `dt` in seconds. -/
structure Timer where
  start_instant : ℕ
  last_frame : ℕ
  dt : ℚ
deriving DecidableEq

/-- `AMOUNT_NANOS` from src/timer.rs. -/
def AMOUNT_NANOS : ℚ := 1000000000

/-- `Timer::new` — both instants are the current time and `dt` starts at 0. -/
def Timer.new (now : ℕ) : Timer :=
  { start_instant := now, last_frame := now, dt := 0 }

/-- `Timer::step` — `now` is the `Instant::now()` read first, `elapsedAt` the
instant at which `last_frame.elapsed()` is sampled just after; `dt` becomes
the elapsed nanoseconds over `AMOUNT_NANOS`, and `last_frame` becomes `now`. -/
def Timer.step (t : Timer) (now elapsedAt : ℕ) : Timer :=
  { t with dt := ((elapsedAt - t.last_frame : ℕ) : ℚ) / AMOUNT_NANOS,
           last_frame := now }

/-- `Timer::get_time` — seconds elapsed since `start_instant`, sampled at
`now`. -/
def Timer.get_time (t : Timer) (now : ℕ) : ℚ :=
  ((now - t.start_instant : ℕ) : ℚ) / AMOUNT_NANOS

/-- `Timer::get_fps` — 0 when `dt` is 0, otherwise `1 / dt`. -/
def Timer.get_fps (t : Timer) : ℚ :=
  if t.dt = 0 then 0 else 1 / t.dt

/-- `Timer::get_delta` — returns `dt`. -/
def Timer.get_delta (t : Timer) : ℚ :=
  t.dt

/-- One scripted call into the timer API of src/timer.rs. -/
inductive TimerCall where
  | step (now elapsedAt : ℕ)
  | get_time (now : ℕ)
  | get_fps
  | get_delta
  | sleep (duration : ℚ)
deriving DecidableEq

/-- The state transition of a single timer call: `step` takes `&mut self` and
updates the state, while `get_time`, `get_fps`, `get_delta` and `sleep` take
`&self` in src/timer.rs and hence return the state unchanged. -/
def Timer.applyCall (t : Timer) : TimerCall → Timer
  | .step now elapsedAt => Timer.step t now elapsedAt
  | .get_time _ => t
  | .get_fps => t
  | .get_delta => t
  | .sleep _ => t

/-- A sequence of timer calls applied in order. -/
def Timer.applyCalls (t : Timer) (cs : List TimerCall) : Timer :=
  cs.foldl Timer.applyCall t

/-! ### Vulkano backend (src/graphics.rs) -/

/-- `Graphics` state (src/graphics.rs).  The opaque GPU handles are embedded
as ℕ tokens; `vertex_buffer` keeps the vertex positions it was built from. -/
structure Graphics where
  surface : ℕ
  device : ℕ
  swapchain : ℕ
  viewport : ℕ
  queue : ℕ
  attachment_image_views : ℕ
  command_buffer_allocator : ℕ
  pipeline : ℕ
  vertex_buffer : List Vertex
  recreate_swapchain : Bool
  clear_color : Color
deriving DecidableEq

/-- Outcome of `Swapchain::recreate` in `Graphics::present`: success carries
the new swapchain, image views and viewport produced by
`window_size_dependent_setup`. -/
inductive RecreateResult where
  | ok (newSwapchain newImageViews newViewport : ℕ)
  | imageExtentNotSupported
  | otherError
deriving DecidableEq

/-- Outcome of `acquire_next_image` in `Graphics::present`. -/
inductive AcquireResult where
  | ok (imageIndex : ℕ) (suboptimal : Bool)
  | outOfDate
  | otherError
deriving DecidableEq

/-- Outcome of `then_signal_fence_and_flush` in `Graphics::present`. -/
inductive FlushResult where
  | ok
  | outOfDate
  | otherError
deriving DecidableEq

/-- The outcomes of the three fallible external GPU calls made by
`Graphics::present`, as an explicit environment. -/
structure PresentEnv where
  recreate : RecreateResult
  acquire : AcquireResult
  flush : FlushResult
deriving DecidableEq

/-- The render pass recorded by `Graphics::present`: the load-op clear value
and the fixed vertex-buffer draw (vertex count, instance count). -/
structure Frame where
  clearValue : Color
  imageIndex : ℕ
  drawVertexCount : ℕ
  drawInstanceCount : ℕ
deriving DecidableEq

/-- How a `Graphics::present` call ends: a normal return (with the rendered
frame, when one was submitted) or a Rust panic. -/
inductive PresentOutcome where
  | returned (frame : Option Frame)
  | panicked
deriving DecidableEq

/-- `Graphics::request_swapchain_recreation` — sets the flag, nothing else. -/
def Graphics.request_swapchain_recreation (g : Graphics) : Graphics :=
  { g with recreate_swapchain := true }

/-- `Graphics::set_clear_color` — overwrites the four stored channels. -/
def Graphics.set_clear_color (g : Graphics) (r gr b a : ℚ) : Graphics :=
  { g with clear_color := { r := r, g := gr, b := b, a := a } }

/-- The part of `Graphics::present` after the recreation branch: acquire the
next image (out-of-date sets the flag and returns, other errors panic), set
the flag when suboptimal, record the render pass that clears with the stored
color and draws the whole fixed vertex buffer with one instance, and finish
according to the fence-flush outcome (out-of-date again sets the flag). -/
def Graphics.presentAcquired (g : Graphics) (env : PresentEnv) :
    Graphics × PresentOutcome :=
  match env.acquire with
  | .outOfDate => ({ g with recreate_swapchain := true }, .returned none)
  | .otherError => (g, .panicked)
  | .ok imageIndex suboptimal =>
    let g := if suboptimal then { g with recreate_swapchain := true } else g
    let frame : Frame :=
      { clearValue := g.clear_color, imageIndex := imageIndex,
        drawVertexCount := g.vertex_buffer.length, drawInstanceCount := 1 }
    match env.flush with
    | .ok => (g, .returned (some frame))
    | .outOfDate => ({ g with recreate_swapchain := true },
                     .returned (some frame))
    | .otherError => (g, .panicked)

/-- `Graphics::present` (src/graphics.rs lines 287–384).  When the recreation
flag is set, first recreate the swapchain: an unsupported image extent returns
early (flag left set), any other recreation error panics, and success installs
the new swapchain, image views and viewport and clears the flag; then proceed
to acquisition and rendering. -/
def Graphics.present (g : Graphics) (env : PresentEnv) :
    Graphics × PresentOutcome :=
  if g.recreate_swapchain then
    match env.recreate with
    | .imageExtentNotSupported => (g, .returned none)
    | .otherError => (g, .panicked)
    | .ok ns ni nv =>
      Graphics.presentAcquired
        { g with swapchain := ns, attachment_image_views := ni,
                 viewport := nv, recreate_swapchain := false } env
  else Graphics.presentAcquired g env

/-! ### Wgpu backend (src/wgpu_backend.rs) -/

/-- `wgpu::SurfaceConfiguration` — the width/height the code mutates, plus a
token for the remaining fields. -/
structure SurfaceConfiguration where
  width : ℕ
  height : ℕ
  rest : ℕ
deriving DecidableEq

/-- `WgpuBackend` state (src/wgpu_backend.rs); opaque handles as ℕ tokens. -/
structure WgpuBackend where
  window : ℕ
  device : ℕ
  queue : ℕ
  surface : ℕ
  render_pipeline : ℕ
  config : SurfaceConfiguration
  clear_color : Color
deriving DecidableEq

/-- Side effects of `WgpuBackend::request_swapchain_recreation` on external
objects: an immediate `surface.configure` and a `window.request_redraw`. -/
inductive WgpuEffect where
  | configureSurface (width height : ℕ)
  | requestRedraw
deriving DecidableEq

/-- Outcome of `surface.get_current_texture()` in `WgpuBackend::present`:
success, the transient `SurfaceError::Outdated`, or some other error. -/
inductive WgpuAcquire where
  | ok
  | outdated
  | otherError
deriving DecidableEq

/-- The render pass recorded by `WgpuBackend::present`: clear value and the
fixed `draw(0..3, 0..1)` call. -/
structure WgpuFrame where
  clearValue : Color
  drawFirstVertex : ℕ
  drawVertexCount : ℕ
  drawInstanceCount : ℕ
deriving DecidableEq

/-- How a `WgpuBackend::present` call ends. -/
inductive WgpuPresentOutcome where
  | returned (frame : WgpuFrame)
  | panicked
deriving DecidableEq

/-- `WgpuBackend::request_swapchain_recreation(new_width, new_height)` —
stores the new size in the surface configuration, immediately reconfigures
the surface with it, and requests a window redraw. -/
def WgpuBackend.request_swapchain_recreation (s : WgpuBackend)
    (new_width new_height : ℕ) : WgpuBackend × List WgpuEffect :=
  let newConfig := { s.config with width := new_width, height := new_height }
  ({ s with config := newConfig },
   [WgpuEffect.configureSurface new_width new_height,
    WgpuEffect.requestRedraw])

/-- `WgpuBackend::set_clear_color` — overwrites the four stored channels. -/
def WgpuBackend.set_clear_color (s : WgpuBackend) (r gr b a : ℚ) :
    WgpuBackend :=
  { s with clear_color := { r := r, g := gr, b := b, a := a } }

/-- `WgpuBackend::present(draw_commands)` (src/wgpu_backend.rs lines
127–164).  The command list parameter is bound as `_draw_commands` and never
read: on successful texture acquisition the render pass clears with the
stored color and issues the single fixed `draw(0..3, 0..1)`; any acquisition
failure — including the transient outdated surface — hits
`.expect("failed to acquire next swap chain texture")` and panics. -/
def WgpuBackend.present (s : WgpuBackend) (_draw_commands : List DrawCommand)
    (acq : WgpuAcquire) : WgpuBackend × WgpuPresentOutcome :=
  match acq with
  | .ok =>
    (s, .returned { clearValue := s.clear_color, drawFirstVertex := 0,
                    drawVertexCount := 3, drawInstanceCount := 1 })
  | .outdated => (s, .panicked)
  | .otherError => (s, .panicked)

/-! ### Scripting surface and event loop (src/main.rs) -/

/-- The `lav.graphics` Lua bindings registered in src/main.rs, in
registration order: script name, target engine operation, argument count. -/
def lavGraphicsBindings : List (String × String × ℕ) :=
  [("setClearColor", "set_clear_color", 4),
   ("present", "present", 0),
   ("rectangle", "rectangle", 4),
   ("origin", "origin", 0),
   ("translate", "translate", 2),
   ("rotate", "rotate", 1),
   ("setColor", "set_color", 4)]

/-- The `lav.timer` Lua bindings registered in src/main.rs, in registration
order: script name, target timer operation, argument count. -/
def lavTimerBindings : List (String × String × ℕ) :=
  [("step", "step", 0),
   ("getFPS", "get_fps", 0),
   ("getTime", "get_time", 0),
   ("getDelta", "get_delta", 0),
   ("sleep", "sleep", 1)]

/-- The scripting surface as the claim words it: engine operation and arity
for the graphics calls — set clear color (4 floats), present (no args), draw
rectangle (4 floats), reset transform (no args), translate (2 floats),
rotate (1 float), set color (4 floats). -/
def specScriptingArities : List (String × ℕ) :=
  [("set_clear_color", 4), ("present", 0), ("rectangle", 4), ("origin", 0),
   ("translate", 2), ("rotate", 1), ("set_color", 4)]

/-- The timing collaborator as the claim words it: advance-frame,
get-frames-per-second, get-elapsed-time-since-start, get-last-frame-delta,
sleep-for-seconds. -/
def specTimerOperations : List String :=
  ["step", "get_fps", "get_time", "get_delta", "sleep"]

/-- The window events distinguished by the event loop in src/main.rs. -/
inductive WEvent where
  | closeRequested
  | resized (width height : ℕ)
  | redrawEventsCleared
  | other
deriving DecidableEq

/-- `winit::event_loop::ControlFlow` as the loop uses it. -/
inductive ControlFlow where
  | poll
  | exit
deriving DecidableEq

/-- The engine calls the event loop issues, in order. -/
inductive EngineEffect where
  | requestSwapchainRecreation
  | timerStep
  | scriptUpdate (delta : ℚ)
  | scriptDraw
deriving DecidableEq

/-- One iteration of the event-loop closure in src/main.rs (lines 190–221):
control flow is set to `Poll` first; a close request switches it to `Exit`; a
resize calls `request_swapchain_recreation` (discarding the new size); a
`RedrawEventsCleared` tick steps the timer and calls the script's `update`
with the fresh `get_delta` when the script defines `update`, then calls
`draw` when the script defines it; every other event does nothing. -/
def handleEvent (t : Timer) (e : WEvent) (hasUpdate hasDraw : Bool)
    (nowA nowB : ℕ) : Timer × ControlFlow × List EngineEffect :=
  match e with
  | .closeRequested => (t, ControlFlow.exit, [])
  | .resized _ _ => (t, ControlFlow.poll, [EngineEffect.requestSwapchainRecreation])
  | .redrawEventsCleared =>
    let stepped := if hasUpdate then Timer.step t nowA nowB else t
    let updateEffects : List EngineEffect :=
      if hasUpdate then
        [EngineEffect.timerStep, EngineEffect.scriptUpdate (Timer.get_delta stepped)]
      else []
    let drawEffects : List EngineEffect :=
      if hasDraw then [EngineEffect.scriptDraw] else []
    (stepped, ControlFlow.poll, updateEffects ++ drawEffects)
  | .other => (t, ControlFlow.poll, [])

/-! ### Sample values used by witnesses and counterexamples -/

/-- A concrete draw command: one rectangle's worth of geometry. -/
def sampleCommand : DrawCommand :=
  { vertices := [⟨0, 0⟩, ⟨0, 1⟩, ⟨1, 0⟩, ⟨1, 1⟩],
    indices := [0, 1, 2, 2, 1, 3],
    projection := Mat.identity, transform := Mat.identity,
    color := { r := 1, g := 0, b := 0, a := 1 } }

/-- A concrete `WgpuBackend` state, as built by `WgpuBackend::new` for a
640×480 window (clear color all zero). -/
def sampleWgpu : WgpuBackend :=
  { window := 0, device := 0, queue := 0, surface := 0, render_pipeline := 0,
    config := { width := 640, height := 480, rest := 0 },
    clear_color := { r := 0, g := 0, b := 0, a := 0 } }

/-- A concrete `Graphics` state, as built by `Graphics::new`: the fixed
three-vertex triangle buffer, recreation flag clear, clear color opaque
black. -/
def sampleGraphics : Graphics :=
  { surface := 0, device := 0, swapchain := 0, viewport := 0, queue := 0,
    attachment_image_views := 0, command_buffer_allocator := 0, pipeline := 0,
    vertex_buffer := [⟨-1/2, -1/4⟩, ⟨0, 1/2⟩, ⟨1/4, -1/10⟩],
    recreate_swapchain := false,
    clear_color := { r := 0, g := 0, b := 0, a := 1 } }

/-- A present environment in which every external GPU call succeeds. -/
def envAllOk : PresentEnv :=
  { recreate := RecreateResult.ok 1 1 1,
    acquire := AcquireResult.ok 0 false,
    flush := FlushResult.ok }

/-- A present environment whose image acquisition reports out-of-date. -/
def envOutOfDate : PresentEnv :=
  { recreate := RecreateResult.ok 1 1 1,
    acquire := AcquireResult.outOfDate,
    flush := FlushResult.ok }

/-- A present environment whose recreation succeeds with fresh tokens. -/
def envRecreateOk : PresentEnv :=
  { recreate := RecreateResult.ok 42 7 9,
    acquire := AcquireResult.ok 0 false,
    flush := FlushResult.ok }

/-- The frame `Graphics::present sampleGraphics envAllOk` submits. -/
def sampleFrame : Frame :=
  { clearValue := { r := 0, g := 0, b := 0, a := 1 }, imageIndex := 0,
    drawVertexCount := 3, drawInstanceCount := 1 }

/-- The frame submitted after setting the clear color to opaque red on
`sampleGraphics`. -/
def sampleRedFrame : Frame :=
  { clearValue := { r := 1, g := 0, b := 0, a := 1 }, imageIndex := 0,
    drawVertexCount := 3, drawInstanceCount := 1 }

/-! ### Helper lemmas -/

/-- Every single timer call keeps `start_instant`. -/
theorem Timer.applyCall_start (t : Timer) (c : TimerCall) :
    (Timer.applyCall t c).start_instant = t.start_instant := by
  cases c <;> rfl

/-- Any sequence of timer calls keeps `start_instant`. -/
theorem Timer.applyCalls_start (t : Timer) (cs : List TimerCall) :
    (Timer.applyCalls t cs).start_instant = t.start_instant := by
  induction cs generalizing t with
  | nil => rfl
  | cons c cs ih =>
    have h1 : Timer.applyCalls t (c :: cs) =
        Timer.applyCalls (Timer.applyCall t c) cs := rfl
    rw [h1, ih, Timer.applyCall_start]

/-- A flush on a Batcher with no pending vertices is the identity. -/
theorem Batcher.flush_of_pending_nil (b : Batcher)
    (h : b.pendingVertices = []) : Batcher.flush b = b := by
  simp [Batcher.flush, h]

/-- After a flush the pending vertex buffer is always empty. -/
theorem Batcher.flush_pendingVertices (b : Batcher) :
    (Batcher.flush b).pendingVertices = [] := by
  by_cases h : b.pendingVertices.length > 0
  · simp [Batcher.flush, h]
  · have h0 : b.pendingVertices = [] :=
      List.length_eq_zero.mp (Nat.eq_zero_of_not_pos h)
    simp [Batcher.flush, h0]

/-- The state left by `Graphics.presentAcquired` keeps the swapchain token. -/
theorem Graphics.presentAcquired_swapchain (g : Graphics) (env : PresentEnv) :
    ((Graphics.presentAcquired g env).1).swapchain = g.swapchain := by
  obtain ⟨er, ea, ef⟩ := env
  cases ea with
  | outOfDate => rfl
  | otherError => rfl
  | ok idx subopt => cases subopt <;> cases ef <;> rfl

/-- Whenever `Graphics.presentAcquired` returns a submitted frame, that frame
clears with the state's stored clear color and draws the whole fixed vertex
buffer once. -/
theorem Graphics.presentAcquired_frame (g : Graphics) (env : PresentEnv)
    (f : Frame)
    (h : (Graphics.presentAcquired g env).2 = PresentOutcome.returned (some f)) :
    f.clearValue = g.clear_color ∧ f.drawVertexCount = g.vertex_buffer.length ∧
    f.drawInstanceCount = 1 := by
  obtain ⟨er, ea, ef⟩ := env
  cases ea with
  | outOfDate => simp [Graphics.presentAcquired] at h
  | otherError => simp [Graphics.presentAcquired] at h
  | ok idx subopt =>
    cases subopt <;> cases ef <;>
      simp [Graphics.presentAcquired] at h <;> simp [← h]

/-- Whenever `Graphics.present` returns a submitted frame, that frame clears
with the stored clear color and draws the whole fixed vertex buffer once. -/
theorem Graphics.present_frame (g : Graphics) (env : PresentEnv) (f : Frame)
    (h : (Graphics.present g env).2 = PresentOutcome.returned (some f)) :
    f.clearValue = g.clear_color ∧ f.drawVertexCount = g.vertex_buffer.length ∧
    f.drawInstanceCount = 1 := by
  unfold Graphics.present at h
  by_cases hr : g.recreate_swapchain
  · rw [if_pos hr] at h
    cases hrec : env.recreate with
    | imageExtentNotSupported => rw [hrec] at h; simp at h
    | otherError => rw [hrec] at h; simp at h
    | ok ns ni nv =>
      rw [hrec] at h
      exact Graphics.presentAcquired_frame
        { g with swapchain := ns, attachment_image_views := ni,
                 viewport := nv, recreate_swapchain := false } env f h
  · rw [if_neg hr] at h
    exact Graphics.presentAcquired_frame g env f h

/-- `Graphics.presentAcquired` never panics when acquisition and fence flush
report at most transient failures. -/
theorem Graphics.presentAcquired_ne_panicked (g : Graphics)
    (re : RecreateResult) (ae : AcquireResult) (fe : FlushResult)
    (ha : ae ≠ AcquireResult.otherError) (hf : fe ≠ FlushResult.otherError) :
    (Graphics.presentAcquired g ⟨re, ae, fe⟩).2 ≠ PresentOutcome.panicked := by
  cases ae with
  | outOfDate => simp [Graphics.presentAcquired]
  | otherError => exact absurd rfl ha
  | ok idx subopt =>
    cases subopt <;> cases fe <;> simp_all [Graphics.presentAcquired]

/-- `Graphics.present` never panics when the external GPU calls report at
most transient failures. -/
theorem Graphics.present_ne_panicked (g : Graphics) (re : RecreateResult)
    (ae : AcquireResult) (fe : FlushResult)
    (hr : re ≠ RecreateResult.otherError) (ha : ae ≠ AcquireResult.otherError)
    (hf : fe ≠ FlushResult.otherError) :
    (Graphics.present g ⟨re, ae, fe⟩).2 ≠ PresentOutcome.panicked := by
  unfold Graphics.present
  by_cases hg : g.recreate_swapchain
  · rw [if_pos hg]
    cases re with
    | imageExtentNotSupported => simp
    | otherError => exact absurd rfl hr
    | ok ns ni nv => exact Graphics.presentAcquired_ne_panicked _ _ ae fe ha hf
  · rw [if_neg hg]
    exact Graphics.presentAcquired_ne_panicked g _ ae fe ha hf

/-! ### Claim theorems -/

/-- Claim C5 (confirmed): the Lua bindings of src/main.rs map one-to-one onto
the engine operations with arities set clear color 4, present 0, rectangle 4,
reset transform 0, translate 2, rotate 1, set color 4, and the timer
collaborator exposes exactly step, get_fps, get_time, get_delta and sleep
(sleep taking the one seconds argument). -/
theorem C5_scripting_surface :
    lavGraphicsBindings.map (fun bind => (bind.2.1, bind.2.2)) =
      specScriptingArities ∧
    (lavGraphicsBindings.map (fun bind => bind.1)).Nodup ∧
    (lavGraphicsBindings.map (fun bind => bind.2.1)).Nodup ∧
    lavTimerBindings.map (fun bind => bind.2.1) = specTimerOperations ∧
    lavTimerBindings.map (fun bind => bind.2.2) = [0, 0, 0, 0, 1] ∧
    (lavTimerBindings.map (fun bind => bind.1)).Nodup := by
  refine ⟨rfl, by decide, by decide, rfl, rfl, by decide⟩

/-- Claim C6 (confirmed): in the event loop of src/main.rs, a resize event
only calls `request_swapchain_recreation`, a close event switches control
flow to exit, a `RedrawEventsCleared` tick (when the script defines both
callbacks) steps the timer once and runs `update` with the fresh delta then
`draw`, and any other event leaves the engine state untouched. -/
theorem C6_event_loop (t : Timer) (hasUpdate hasDraw : Bool)
    (nA nB w h : ℕ) :
    handleEvent t (WEvent.resized w h) hasUpdate hasDraw nA nB =
      (t, ControlFlow.poll, [EngineEffect.requestSwapchainRecreation]) ∧
    handleEvent t WEvent.closeRequested hasUpdate hasDraw nA nB =
      (t, ControlFlow.exit, []) ∧
    (hasUpdate = true → hasDraw = true →
      handleEvent t WEvent.redrawEventsCleared hasUpdate hasDraw nA nB =
        (Timer.step t nA nB, ControlFlow.poll,
          [EngineEffect.timerStep,
           EngineEffect.scriptUpdate (Timer.get_delta (Timer.step t nA nB)),
           EngineEffect.scriptDraw])) ∧
    handleEvent t WEvent.other hasUpdate hasDraw nA nB =
      (t, ControlFlow.poll, []) := by
  refine ⟨rfl, rfl, fun hu hd => ?_, rfl⟩
  subst hu; subst hd; rfl

/-- Concrete instantiation of C6: a redraw tick with both script callbacks
defined. -/
theorem C6_event_loop_witness :
    handleEvent (Timer.new 0) WEvent.redrawEventsCleared true true 5 6 =
      (Timer.step (Timer.new 0) 5 6, ControlFlow.poll,
        [EngineEffect.timerStep,
         EngineEffect.scriptUpdate (Timer.get_delta (Timer.step (Timer.new 0) 5 6)),
         EngineEffect.scriptDraw]) :=
  (C6_event_loop (Timer.new 0) true true 5 6 0 0).2.2.1 rfl rfl

/-- Claim C7 (confirmed, spec-modelled): `rectangle(x,y,w,h)` appends exactly
the 4 vertices (x,y), (x,y+h), (x+w,y), (x+w,y+h) and the 6 indices
s, s+1, s+2, s+2, s+1, s+3 for s the pending vertex count before the call,
changes nothing else (in particular never flushes), and accepts degenerate
zero-extent rectangles; the index pattern is verified at offsets 0 and 4. -/
theorem C7_rectangle_pure_append (b : Batcher) (x y w h : ℚ) :
    Batcher.rectangle b x y w h =
      { b with
        pendingVertices := b.pendingVertices ++
          [⟨x, y⟩, ⟨x, y + h⟩, ⟨x + w, y⟩, ⟨x + w, y + h⟩],
        pendingIndices := b.pendingIndices ++
          [b.pendingVertices.length, b.pendingVertices.length + 1,
           b.pendingVertices.length + 2, b.pendingVertices.length + 2,
           b.pendingVertices.length + 1, b.pendingVertices.length + 3] } ∧
    (Batcher.rectangle (Batcher.rectangle Batcher.empty 0 0 10 10)
        20 20 5 5).pendingIndices =
      [0, 1, 2, 2, 1, 3, 4, 5, 6, 6, 5, 7] ∧
    (Batcher.rectangle Batcher.empty 1 2 0 0).pendingVertices =
      [⟨1, 2⟩, ⟨1, 2⟩, ⟨1, 2⟩, ⟨1, 2⟩] := by
  refine ⟨rfl, by decide, by norm_num [Batcher.rectangle, Batcher.empty]⟩

/-- Claim C8 (confirmed, spec-modelled): a flush with no pending vertices is
a no-op, and `present` drains the committed list exactly once — after any
present the committed list and the pending buffer are empty, so a second
consecutive present hands the backend the empty command list. -/
theorem C8_flush_noop_present_drains (b : Batcher) :
    (b.pendingVertices = [] → Batcher.flush b = b) ∧
    (Batcher.present b).1.commands = [] ∧
    (Batcher.present b).1.pendingVertices = [] ∧
    (Batcher.present (Batcher.present b).1).2 = [] := by
  have h2 : (Batcher.present b).1.commands = [] := rfl
  have h3 : (Batcher.present b).1.pendingVertices = [] :=
    Batcher.flush_pendingVertices b
  refine ⟨fun h => Batcher.flush_of_pending_nil b h, h2, h3, ?_⟩
  show (Batcher.flush (Batcher.present b).1).commands = []
  rw [Batcher.flush_of_pending_nil _ h3]
  exact h2

/-- Concrete instantiation of C8 on the empty Batcher and on a Batcher
holding one rectangle. -/
theorem C8_flush_noop_present_drains_witness :
    Batcher.flush Batcher.empty = Batcher.empty ∧
    (Batcher.present (Batcher.rectangle Batcher.empty 0 0 10 10)).1.commands = [] ∧
    (Batcher.present
      (Batcher.present (Batcher.rectangle Batcher.empty 0 0 10 10)).1).2 = [] :=
  ⟨(C8_flush_noop_present_drains Batcher.empty).1 rfl,
   (C8_flush_noop_present_drains (Batcher.rectangle Batcher.empty 0 0 10 10)).2.1,
   (C8_flush_noop_present_drains (Batcher.rectangle Batcher.empty 0 0 10 10)).2.2.2⟩

/-- Claim C9 (confirmed): `Timer::get_fps` returns 0 when the stored delta is
0 — as it is right after construction — and otherwise the reciprocal of
`get_delta`; the division is guarded by the `dt == 0` test. -/
theorem C9_get_fps_guarded (t : Timer) (now : ℕ) :
    (Timer.new now).dt = 0 ∧
    Timer.get_fps (Timer.new now) = 0 ∧
    (t.dt = 0 → Timer.get_fps t = 0) ∧
    (t.dt ≠ 0 → Timer.get_fps t = 1 / Timer.get_delta t) := by
  refine ⟨rfl, rfl, fun h => ?_, fun h => ?_⟩
  · simp [Timer.get_fps, h]
  · simp [Timer.get_fps, Timer.get_delta, h]

/-- Concrete instantiation of C9 at a zero and a nonzero delta. -/
theorem C9_get_fps_guarded_witness :
    Timer.get_fps (Timer.new 7) = 0 ∧
    Timer.get_fps { start_instant := 0, last_frame := 0, dt := 1/2 } =
      1 / Timer.get_delta { start_instant := 0, last_frame := 0, dt := 1/2 } :=
  ⟨(C9_get_fps_guarded (Timer.new 7) 7).2.2.1 rfl,
   (C9_get_fps_guarded { start_instant := 0, last_frame := 0, dt := 1/2 } 0).2.2.2
     (by norm_num)⟩

/-- Claim C10 (confirmed): `Timer::step` writes only `dt` and `last_frame`
and preserves `start_instant`; the borrowed observers `get_time`, `get_fps`,
`get_delta` and `sleep` leave the timer unchanged; hence after any sequence
of timer calls `get_time` still measures elapsed time since construction. -/
theorem C10_step_touches_only_dt_last_frame (t : Timer) (cs : List TimerCall)
    (now nowA nowB : ℕ) (d : ℚ) :
    Timer.step t nowA nowB =
      { start_instant := t.start_instant, last_frame := nowA,
        dt := ((nowB - t.last_frame : ℕ) : ℚ) / AMOUNT_NANOS } ∧
    Timer.applyCall t (TimerCall.get_time now) = t ∧
    Timer.applyCall t TimerCall.get_fps = t ∧
    Timer.applyCall t TimerCall.get_delta = t ∧
    Timer.applyCall t (TimerCall.sleep d) = t ∧
    (Timer.applyCalls t cs).start_instant = t.start_instant ∧
    Timer.get_time (Timer.applyCalls t cs) now = Timer.get_time t now := by
  refine ⟨rfl, rfl, rfl, rfl, rfl, Timer.applyCalls_start t cs, ?_⟩
  simp [Timer.get_time, Timer.applyCalls_start]

/-- Claim C1 counterexample: at a concrete backend state,
`WgpuBackend::present` produces the same state and the same GPU work for the
empty command list and for a one-command list — the submitted render pass is
the fixed three-vertex draw in both cases — so the rendered output does not
depend on the commands handed in and the commands are not rendered. -/
theorem C1_wgpu_ignores_commands_cex :
    WgpuBackend.present sampleWgpu [sampleCommand] WgpuAcquire.ok =
      WgpuBackend.present sampleWgpu [] WgpuAcquire.ok ∧
    (WgpuBackend.present sampleWgpu [sampleCommand] WgpuAcquire.ok).2 =
      WgpuPresentOutcome.returned
        { clearValue := { r := 0, g := 0, b := 0, a := 0 },
          drawFirstVertex := 0, drawVertexCount := 3, drawInstanceCount := 1 } ∧
    [sampleCommand] ≠ ([] : List DrawCommand) := by
  refine ⟨rfl, rfl, by simp⟩

/-- Claim C1 (corrected): `WgpuBackend::present` consumes the ordered
draw-command list but never reads it — its result is the same for any two
command lists, and on a successful acquisition it submits exactly one fixed
draw of vertices 0..3 with one instance, cleared with the stored clear
color; likewise the vulkano `Graphics::present` takes no command list at all
and any frame it submits draws only the fixed built-in vertex buffer with one
instance. -/
theorem C1_present_ignores_commands :
    (∀ (s : WgpuBackend) (cmds cmds' : List DrawCommand) (acq : WgpuAcquire),
      WgpuBackend.present s cmds acq = WgpuBackend.present s cmds' acq) ∧
    (∀ (s : WgpuBackend) (cmds : List DrawCommand),
      (WgpuBackend.present s cmds WgpuAcquire.ok).2 =
        WgpuPresentOutcome.returned
          { clearValue := s.clear_color, drawFirstVertex := 0,
            drawVertexCount := 3, drawInstanceCount := 1 }) ∧
    (∀ (g : Graphics) (env : PresentEnv) (f : Frame),
      (Graphics.present g env).2 = PresentOutcome.returned (some f) →
      f.drawVertexCount = g.vertex_buffer.length ∧ f.drawInstanceCount = 1) := by
  refine ⟨fun s cmds cmds' acq => ?_, fun s cmds => rfl, fun g env f h => ?_⟩
  · cases acq <;> rfl
  · exact ⟨(Graphics.present_frame g env f h).2.1,
           (Graphics.present_frame g env f h).2.2⟩

/-- Concrete instantiation of C1: the frame submitted by the vulkano present
on a fully successful environment draws the three fixed vertices once. -/
theorem C1_present_ignores_commands_witness :
    sampleFrame.drawVertexCount = sampleGraphics.vertex_buffer.length ∧
    sampleFrame.drawInstanceCount = 1 :=
  C1_present_ignores_commands.2.2 sampleGraphics envAllOk sampleFrame rfl

/-- Claim C2 counterexample: at a concrete state, a transient presentation
failure — the surface reporting outdated during acquisition — makes
`WgpuBackend::present` panic instead of being handled inside the backend. -/
theorem C2_wgpu_panics_on_outdated_cex :
    (WgpuBackend.present sampleWgpu [] WgpuAcquire.outdated).2 =
      WgpuPresentOutcome.panicked := rfl

/-- Claim C2 (corrected): in the vulkano `Graphics` backend a transient
presentation failure never panics — an unsupported extent during recreation
returns with the flag still set and nothing submitted, an out-of-date
acquisition sets the flag and returns without submitting, a suboptimal
acquisition sets the flag and still renders, and present has no failure
return value; `WgpuBackend::present`, however, panics on any surface
acquisition failure, including the transient outdated surface. -/
theorem C2_transient_never_panics (g : Graphics) (env : PresentEnv)
    (hr : env.recreate ≠ RecreateResult.otherError)
    (ha : env.acquire ≠ AcquireResult.otherError)
    (hf : env.flush ≠ FlushResult.otherError) :
    (Graphics.present g env).2 ≠ PresentOutcome.panicked ∧
    (g.recreate_swapchain = true →
      env.recreate = RecreateResult.imageExtentNotSupported →
      Graphics.present g env = (g, PresentOutcome.returned none)) ∧
    (g.recreate_swapchain = false → env.acquire = AcquireResult.outOfDate →
      Graphics.present g env =
        ({ g with recreate_swapchain := true }, PresentOutcome.returned none)) ∧
    (∀ idx, g.recreate_swapchain = false →
      env.acquire = AcquireResult.ok idx true →
      (Graphics.present g env).1.recreate_swapchain = true ∧
      (Graphics.present g env).2 = PresentOutcome.returned (some
        { clearValue := g.clear_color, imageIndex := idx,
          drawVertexCount := g.vertex_buffer.length,
          drawInstanceCount := 1 })) ∧
    (∀ (s : WgpuBackend) (cmds : List DrawCommand),
      (WgpuBackend.present s cmds WgpuAcquire.outdated).2 =
        WgpuPresentOutcome.panicked) := by
  obtain ⟨re, ae, fe⟩ := env
  refine ⟨Graphics.present_ne_panicked g re ae fe hr ha hf, ?_, ?_, ?_,
    fun s cmds => rfl⟩
  · intro hflag hrec
    simp only at hrec
    subst hrec
    simp [Graphics.present, hflag]
  · intro hflag hacq
    simp only at hacq
    subst hacq
    simp [Graphics.present, hflag, Graphics.presentAcquired]
  · intro idx hflag hacq
    simp only at hacq
    subst hacq
    cases fe <;> simp_all [Graphics.present, hflag, Graphics.presentAcquired]

/-- Concrete instantiation of C2: an out-of-date acquisition on a concrete
state sets the recreation flag and returns without submitting. -/
theorem C2_transient_never_panics_witness :
    Graphics.present sampleGraphics envOutOfDate =
      ({ sampleGraphics with recreate_swapchain := true },
       PresentOutcome.returned none) :=
  (C2_transient_never_panics sampleGraphics envOutOfDate (by decide)
    (by decide) (by decide)).2.2.1 rfl rfl

/-- Claim C3 counterexample: at a concrete state,
`WgpuBackend::request_swapchain_recreation` does not merely mark a pending
recreation — it immediately reconfigures the surface with the new size and
also requests a window redraw, an observable effect beyond marking, changing
the stored surface configuration on the spot. -/
theorem C3_wgpu_recreation_immediate_cex :
    (WgpuBackend.request_swapchain_recreation sampleWgpu 320 200).2 =
      [WgpuEffect.configureSurface 320 200, WgpuEffect.requestRedraw] ∧
    WgpuEffect.requestRedraw ∈
      (WgpuBackend.request_swapchain_recreation sampleWgpu 320 200).2 ∧
    (WgpuBackend.request_swapchain_recreation sampleWgpu 320 200).1.config ≠
      sampleWgpu.config := by
  refine ⟨rfl, by decide, by decide⟩

/-- Claim C3 (corrected): the vulkano
`Graphics::request_swapchain_recreation` only sets the recreation-pending
flag, changing no other state, and the next present whose recreation attempt
succeeds installs the new swapchain; `WgpuBackend`'s version instead stores
the new size, reconfigures the surface immediately and requests a window
redraw. -/
theorem C3_request_only_marks (g : Graphics) (env : PresentEnv)
    (ns ni nv : ℕ) (h : env.recreate = RecreateResult.ok ns ni nv) :
    Graphics.request_swapchain_recreation g =
      { g with recreate_swapchain := true } ∧
    (Graphics.present (Graphics.request_swapchain_recreation g) env).1.swapchain
      = ns ∧
    (∀ (s : WgpuBackend) (w hh : ℕ),
      WgpuBackend.request_swapchain_recreation s w hh =
        ({ s with config := { s.config with width := w, height := hh } },
         [WgpuEffect.configureSurface w hh, WgpuEffect.requestRedraw])) := by
  refine ⟨rfl, ?_, fun s w hh => rfl⟩
  show (Graphics.present { g with recreate_swapchain := true } env).1.swapchain = ns
  unfold Graphics.present
  rw [if_pos rfl, h]
  exact Graphics.presentAcquired_swapchain _ env

/-- Concrete instantiation of C3: a present after a recreation request on a
concrete state installs the freshly created swapchain. -/
theorem C3_request_only_marks_witness :
    (Graphics.present (Graphics.request_swapchain_recreation sampleGraphics)
      envRecreateOk).1.swapchain = 42 :=
  (C3_request_only_marks sampleGraphics envRecreateOk 42 7 9 rfl).2.1

/-- Claim C4 (confirmed): `set_clear_color(r,g,b,a)` stores exactly that
color and changes nothing else (recreation flag included) in both backends,
and the next present's render pass clears with exactly that color — stated
for any frame the vulkano present submits and for the wgpu present on a
successful acquisition. -/
theorem C4_set_clear_color (g : Graphics) (r gr b a : ℚ) (env : PresentEnv)
    (f : Frame) (s : WgpuBackend) (cmds : List DrawCommand) :
    Graphics.set_clear_color g r gr b a =
      { g with clear_color := { r := r, g := gr, b := b, a := a } } ∧
    ((Graphics.present (Graphics.set_clear_color g r gr b a) env).2 =
        PresentOutcome.returned (some f) →
      f.clearValue = { r := r, g := gr, b := b, a := a }) ∧
    WgpuBackend.set_clear_color s r gr b a =
      { s with clear_color := { r := r, g := gr, b := b, a := a } } ∧
    (WgpuBackend.present (WgpuBackend.set_clear_color s r gr b a) cmds
        WgpuAcquire.ok).2 =
      WgpuPresentOutcome.returned
        { clearValue := { r := r, g := gr, b := b, a := a },
          drawFirstVertex := 0, drawVertexCount := 3,
          drawInstanceCount := 1 } := by
  refine ⟨rfl, fun h => ?_, rfl, rfl⟩
  exact (Graphics.present_frame _ env f h).1

/-- Concrete instantiation of C4: after setting opaque red on a concrete
state, the submitted frame clears with opaque red. -/
theorem C4_set_clear_color_witness :
    sampleRedFrame.clearValue = { r := 1, g := 0, b := 0, a := 1 } :=
  (C4_set_clear_color sampleGraphics 1 0 0 1 envAllOk sampleRedFrame
    sampleWgpu []).2.1 rfl

end Lav
